import Mathlib

/-!
Verification of the Account REST microservice (route layer in
src/service/routes.py, together with the Account entity and store adapter
described in the specification).

The embedding is shallow: the store is an explicit value threaded through
every handler, JSON wire data is an inductive value type, and each Flask
route handler becomes a pure function from (request, store) to
(response, store).
-/

namespace AccountService

/-- A JSON-like wire value, as exchanged in request and response bodies. -/
inductive Json where
  | null : Json
  | str : String → Json
  | num : Int → Json
  | arr : List Json → Json
  | obj : List (String × Json) → Json

/-- Modelled from the spec: the Account entity of service/models.py (not
present under src). Attributes per section 3 of the specification: id is an
integer assigned by the store, the four text fields and the calendar date
date_joined, here kept in its ISO-8601 string form. -/
structure Account where
  id : Nat
  name : String
  email : String
  address : String
  phone_number : String
  date_joined : String
deriving DecidableEq

/-- Modelled from the spec: the field values carried by a request body after
successful deserialization; everything of an Account except id, which the
client never supplies on create (it is assigned by the store). -/
structure AccountFields where
  name : String
  email : String
  address : String
  phone_number : String
  date_joined : String
deriving DecidableEq

/-- Association-list lookup on the fields of a JSON object. -/
def jlookup : List (String × Json) → String → Option Json
  | [], _ => none
  | (k, v) :: rest, key => if k = key then some v else jlookup rest key

/-- Checks that a string is an ISO-8601 calendar date of the form
YYYY-MM-DD with a plausible month and day. -/
def isIsoDate (s : String) : Bool :=
  match s.toList with
  | [y1, y2, y3, y4, '-', m1, m2, '-', d1, d2] =>
      ([y1, y2, y3, y4, m1, m2, d1, d2].all Char.isDigit) &&
      (let mv := 10 * (m1.toNat - 48) + (m2.toNat - 48)
       let dv := 10 * (d1.toNat - 48) + (d2.toNat - 48)
       decide (1 ≤ mv) && decide (mv ≤ 12) && decide (1 ≤ dv) && decide (dv ≤ 31))
  | _ => false

/-- Modelled from the spec: reading one required text field of the wire
record during deserialization; a missing or non-string field is a
validation error naming the problem. -/
def getStr (fields : List (String × Json)) (key : String) : Except String String :=
  match jlookup fields key with
  | some (Json.str s) => Except.ok s
  | some _ => Except.error ("Invalid Account: bad type for " ++ key)
  | none => Except.error ("Invalid Account: missing " ++ key)

/-- Modelled from the spec: Account.serialize of service/models.py (not
present under src). Produces the field-for-field JSON mapping of section 6,
with date_joined rendered as its ISO-8601 string. -/
def Account.serialize (a : Account) : Json :=
  Json.obj
    [ ("id", Json.num (Int.ofNat a.id)),
      ("name", Json.str a.name),
      ("email", Json.str a.email),
      ("address", Json.str a.address),
      ("phone_number", Json.str a.phone_number),
      ("date_joined", Json.str a.date_joined) ]

/-- Modelled from the spec: Account.deserialize of service/models.py (not
present under src). Parses a JSON mapping into the account field values,
failing with a ValidationError message when a required field is missing or
malformed (for instance an unparseable date); any client-supplied id is
ignored. The argument is the optional parsed request body. -/
def deserialize (body : Option Json) : Except String AccountFields :=
  match body with
  | some (Json.obj fields) =>
      match getStr fields "name" with
      | Except.error e => Except.error e
      | Except.ok nameV =>
      match getStr fields "email" with
      | Except.error e => Except.error e
      | Except.ok emailV =>
      match getStr fields "address" with
      | Except.error e => Except.error e
      | Except.ok addressV =>
      match getStr fields "phone_number" with
      | Except.error e => Except.error e
      | Except.ok phoneV =>
      match getStr fields "date_joined" with
      | Except.error e => Except.error e
      | Except.ok dateV =>
      if isIsoDate dateV then
        Except.ok ⟨nameV, emailV, addressV, phoneV, dateV⟩
      else Except.error "Invalid Account: date_joined is not a parseable date"
  | _ => Except.error "Invalid Account: body contained no data"

/-- Modelled from the spec: the relational store, one row per Account, with
the next primary key the store will assign. -/
structure Store where
  rows : List Account
  nextId : Nat
deriving DecidableEq

/-- Modelled from the spec: Account.create, inserting one new row whose id
is newly assigned by the store. -/
def Store.create (db : Store) (f : AccountFields) : Account × Store :=
  let account : Account :=
    { id := db.nextId, name := f.name, email := f.email, address := f.address,
      phone_number := f.phone_number, date_joined := f.date_joined }
  (account, { rows := db.rows ++ [account], nextId := db.nextId + 1 })

/-- Modelled from the spec: Account.find, primary-key lookup returning the
matching record or an absent indicator. -/
def Store.find (db : Store) (account_id : Nat) : Option Account :=
  db.rows.find? (fun a => a.id = account_id)

/-- Modelled from the spec: Account.all, the materialized sequence of every
row of the table. -/
def Store.all (db : Store) : List Account :=
  db.rows

/-- Modelled from the spec: applying deserialized field values to an
already-located record; its id does not change. -/
def applyFields (a : Account) (f : AccountFields) : Account :=
  { a with name := f.name, email := f.email, address := f.address,
           phone_number := f.phone_number, date_joined := f.date_joined }

/-- Modelled from the spec: Account.update, persisting new field values on
the row with the given id. -/
def Store.updateRow (db : Store) (account_id : Nat) (f : AccountFields) : Store :=
  { db with rows := db.rows.map (fun a => if a.id = account_id then applyFields a f else a) }

/-- Modelled from the spec: Account.delete, removing the row with the given
id when present. -/
def Store.deleteRow (db : Store) (account_id : Nat) : Store :=
  { db with rows := db.rows.filter (fun a => ¬ a.id = account_id) }

/-- An incoming HTTP request as the handlers see it: the Content-Type
header (absent or its exact string) and the JSON body as parsed by the
framework (absent when there was no parseable JSON body). -/
structure Request where
  contentType : Option String
  body : Option Json

/-- An outgoing HTTP response: status code, body, and the Location header
when one is set. -/
structure Response where
  status : Nat
  body : Json
  location : Option String

/-- The check_content_type utility of routes.py: the request passes when the
Content-Type header is present, non-empty and exactly the required media
type; otherwise the result is the 415 response it aborts with, whose message
states the required type. -/
def check_content_type (media_type : String) (content_type : Option String) : Option Response :=
  match content_type with
  | some c =>
      if ¬ c = "" ∧ c = media_type then none
      else some { status := 415,
                  body := Json.str ("Content-Type must be " ++ media_type),
                  location := none }
  | none => some { status := 415,
                   body := Json.str ("Content-Type must be " ++ media_type),
                   location := none }

/-- The health handler of routes.py: a fixed 200 payload. -/
def health (db : Store) : Response × Store :=
  ({ status := 200, body := Json.obj [("status", Json.str "OK")], location := none }, db)

/-- The create_accounts handler of routes.py: enforce the JSON content
type, deserialize the body, insert the new Account and answer 201 with its
serialization and the placeholder Location header. -/
def create_accounts (req : Request) (db : Store) : Response × Store :=
  match check_content_type "application/json" req.contentType with
  | some errResp => (errResp, db)
  | none =>
      match deserialize req.body with
      | Except.error msg => ({ status := 400, body := Json.str msg, location := none }, db)
      | Except.ok fields =>
          let created := db.create fields
          ({ status := 201, body := created.1.serialize, location := some "/" }, created.2)

/-- The list_accounts handler of routes.py: 200 with the serialization of
every stored Account. -/
def list_accounts (db : Store) : Response × Store :=
  ({ status := 200, body := Json.arr (db.all.map Account.serialize), location := none }, db)

/-- The get_accounts handler of routes.py: find the Account by id, abort
with a 404 naming the missing id when absent, otherwise 200 with its
serialization. -/
def get_accounts (account_id : Nat) (db : Store) : Response × Store :=
  match db.find account_id with
  | none =>
      ({ status := 404,
         body := Json.str ("Account with id " ++ toString account_id ++ " could not be found."),
         location := none }, db)
  | some account =>
      ({ status := 200, body := account.serialize, location := none }, db)

/-- The update_account handler of routes.py: read the parsed body, find the
Account by id, abort with a 404 naming the missing id when absent, then
deserialize the body onto the record and persist it, answering 200 with the
updated serialization. No content-type check is performed here. -/
def update_account (account_id : Nat) (req : Request) (db : Store) : Response × Store :=
  let data := req.body
  match db.find account_id with
  | none =>
      ({ status := 404,
         body := Json.str ("Account with id " ++ toString account_id ++ " could not be found."),
         location := none }, db)
  | some account =>
      match deserialize data with
      | Except.error msg => ({ status := 400, body := Json.str msg, location := none }, db)
      | Except.ok fields =>
          ({ status := 200, body := (applyFields account fields).serialize, location := none },
           db.updateRow account_id fields)

/-- The delete_account handler of routes.py: find the Account by id, delete
it when present, and answer 204 with an empty body either way. -/
def delete_account (account_id : Nat) (db : Store) : Response × Store :=
  match db.find account_id with
  | some _ => ({ status := 204, body := Json.str "", location := none }, db.deleteRow account_id)
  | none => ({ status := 204, body := Json.str "", location := none }, db)

/-! Concrete fixtures used to exercise the handlers at explicit inputs. -/

/-- A wire body carrying every required field with valid values. -/
def exBody : Json :=
  Json.obj
    [ ("name", Json.str "John"), ("email", Json.str "john@example.com"),
      ("address", Json.str "1 Main St"), ("phone_number", Json.str "555-0100"),
      ("date_joined", Json.str "2024-01-01") ]

/-- The field values exBody deserializes to. -/
def exFields : AccountFields :=
  { name := "John", email := "john@example.com", address := "1 Main St",
    phone_number := "555-0100", date_joined := "2024-01-01" }

/-- A wire body missing every required field but name, as in the spec
example of an invalid create payload. -/
def exBadBody : Json :=
  Json.obj [("name", Json.str "not enough data")]

/-- A stored Account with id 1. -/
def exAccount : Account :=
  { id := 1, name := "Ann", email := "ann@example.com", address := "2 Oak Ave",
    phone_number := "555-0101", date_joined := "2023-05-06" }

/-- A store holding exactly exAccount, with primary key 2 next. -/
def exStore : Store :=
  { rows := [exAccount], nextId := 2 }

/-- The empty store. -/
def emptyStore : Store :=
  { rows := [], nextId := 1 }

/-- A JSON request carrying the valid body. -/
def exReqGood : Request :=
  { contentType := some "application/json", body := some exBody }

/-- A request with an HTML content type; the framework parses no JSON body
out of such a request, so its parsed body is absent. -/
def exReqHtml : Request :=
  { contentType := some "text/html", body := none }

/-- A request whose Content-Type is application/json with a charset
parameter: the header string is not exactly application/json, yet its
mimetype is application/json, so the framework parses the body as JSON all
the same and the parsed body is present. -/
def exReqCharset : Request :=
  { contentType := some "application/json; charset=utf-8", body := some exBody }

/-- A JSON request carrying the invalid body. -/
def exReqBad : Request :=
  { contentType := some "application/json", body := some exBadBody }

/-! Helper lemmas shared between claims. -/

/-- Looking up an id right after deleting its row finds nothing. -/
theorem find_deleteRow (db : Store) (i : Nat) : (db.deleteRow i).find i = none := by
  rw [Store.find, Store.deleteRow]
  rw [List.find?_eq_none]
  intro x hx
  simp only [List.mem_filter, decide_eq_true_eq] at hx
  simp [hx.2]

/-! Claims. -/

/-- Claim C1, counterexample: a PUT whose Content-Type is the string
application/json; charset=utf-8 is not exactly application/json, so the
claim demands a 415 with no store operation; yet the mimetype of that
header is application/json, the framework parses the body as JSON, and the
handler, which checks no content type, answers 200 on an existing id with a
valid body and mutates the store. -/
theorem C1_counterexample :
    ((update_account 1 exReqCharset exStore).1.status = 200) ∧
    (¬ (update_account 1 exReqCharset exStore).1.status = 415) ∧
    (¬ (update_account 1 exReqCharset exStore).2 = exStore) :=
  ⟨rfl, by decide, by decide⟩

/-- Claim C1, amended: for every POST whose Content-Type header is absent
or is not exactly application/json, the handler answers 415 with a message
stating the required media type and the store is untouched; the PUT handler
performs no content-type check of its own, so a PUT whose Content-Type is
application/json followed by parameters, which the framework parses as JSON
all the same, handles exactly as one whose Content-Type is exactly
application/json instead of answering 415. -/
theorem C1_post_only_content_type (req : Request) (db : Store)
    (h : ¬ req.contentType = some "application/json") :
    ((create_accounts req db).1.status = 415) ∧
    ((create_accounts req db).1.body = Json.str "Content-Type must be application/json") ∧
    ((create_accounts req db).2 = db) ∧
    (∀ i p, update_account i
              { contentType := some ("application/json; " ++ p), body := req.body } db =
            update_account i
              { contentType := some "application/json", body := req.body } db) := by
  have key : check_content_type "application/json" req.contentType =
      some { status := 415, body := Json.str "Content-Type must be application/json",
             location := none } := by
    rcases hc : req.contentType with _ | c
    · rfl
    · have hne : ¬ c = "application/json" := fun h2 => h (by rw [hc, h2])
      simp [check_content_type, hne]
  exact ⟨by simp [create_accounts, key], by simp [create_accounts, key],
         by simp [create_accounts, key], fun i p => rfl⟩

/-- Claim C1, witness of the amended theorem at a concrete input. -/
theorem C1_post_only_content_type_witness :
    (¬ exReqHtml.contentType = some "application/json") ∧
    ((create_accounts exReqHtml exStore).1.status = 415) ∧
    ((create_accounts exReqHtml exStore).2 = exStore) :=
  ⟨by decide, (C1_post_only_content_type exReqHtml exStore (by decide)).1,
    (C1_post_only_content_type exReqHtml exStore (by decide)).2.2.1⟩

/-- Claim C2: every domain error leaves the store exactly as it was. A PUT
to an absent id answers 404 and creates no record; a PUT to a present id or
a JSON POST whose body fails deserialization answers 400 and persists
nothing; a POST with the wrong media type answers 415 and persists
nothing. -/
theorem C2_no_partial_writes (req : Request) (db : Store) (i : Nat) :
    (db.find i = none →
        (update_account i req db).1.status = 404 ∧ (update_account i req db).2 = db) ∧
    (∀ a msg, db.find i = some a → deserialize req.body = Except.error msg →
        (update_account i req db).1.status = 400 ∧ (update_account i req db).2 = db) ∧
    (∀ msg, req.contentType = some "application/json" →
        deserialize req.body = Except.error msg →
        (create_accounts req db).1.status = 400 ∧ (create_accounts req db).2 = db) ∧
    (¬ req.contentType = some "application/json" →
        (create_accounts req db).1.status = 415 ∧ (create_accounts req db).2 = db) := by
  refine ⟨?_, ?_, ?_, ?_⟩
  · intro h
    simp [update_account, h]
  · intro a msg hf hd
    simp [update_account, hf, hd]
  · intro msg hct hd
    simp [create_accounts, check_content_type, hct, hd]
  · intro h
    rcases hc : req.contentType with _ | c
    · simp [create_accounts, check_content_type, hc]
    · have hne : ¬ c = "application/json" := fun h2 => h (by rw [hc, h2])
      simp [create_accounts, check_content_type, hc, hne]

/-- Claim C2, witness at concrete inputs: a PUT to absent id 9 with an
invalid body answers 404 and leaves the store untouched. -/
theorem C2_no_partial_writes_witness :
    (exStore.find 9 = none) ∧
    ((update_account 9 exReqBad exStore).1.status = 404) ∧
    ((update_account 9 exReqBad exStore).2 = exStore) :=
  ⟨rfl, ((C2_no_partial_writes exReqBad exStore 9).1 rfl).1,
    ((C2_no_partial_writes exReqBad exStore 9).1 rfl).2⟩

/-- Claim C3: reading an account answers 200 with its serialization when
the id is present, 404 with a message naming the missing id when it is
absent, and no other status is possible. -/
theorem C3_get_account (i : Nat) (db : Store) :
    (∀ a, db.find i = some a →
        get_accounts i db = ({ status := 200, body := a.serialize, location := none }, db)) ∧
    (db.find i = none →
        get_accounts i db =
          ({ status := 404,
             body := Json.str ("Account with id " ++ toString i ++ " could not be found."),
             location := none }, db)) ∧
    ((get_accounts i db).1.status = 200 ∨ (get_accounts i db).1.status = 404) := by
  refine ⟨?_, ?_, ?_⟩
  · intro a h
    simp [get_accounts, h]
  · intro h
    simp [get_accounts, h]
  · cases h : db.find i with
    | none => exact Or.inr (by simp [get_accounts, h])
    | some a => exact Or.inl (by simp [get_accounts, h])

/-- Claim C3, witness at concrete inputs: id 1 is found and read with 200,
id 0 is absent and read with 404. -/
theorem C3_get_account_witness :
    (exStore.find 1 = some exAccount) ∧
    (get_accounts 1 exStore =
      ({ status := 200, body := exAccount.serialize, location := none }, exStore)) ∧
    (exStore.find 0 = none) ∧
    ((get_accounts 0 exStore).1.status = 404) :=
  ⟨rfl, (C3_get_account 1 exStore).1 exAccount rfl, rfl,
    by rw [(C3_get_account 0 exStore).2.1 rfl]⟩

/-- Claim C4: deleting answers 204 with an empty body whether or not the id
is present, the id is absent afterwards, and a second delete again answers
204 with an empty body. -/
theorem C4_delete_idempotent (i : Nat) (db : Store) :
    ((delete_account i db).1.status = 204) ∧
    ((delete_account i db).1.body = Json.str "") ∧
    ((delete_account i db).2.find i = none) ∧
    ((delete_account i ((delete_account i db).2)).1.status = 204) ∧
    ((delete_account i ((delete_account i db).2)).1.body = Json.str "") := by
  have hstat : ∀ db2 : Store, (delete_account i db2).1.status = 204 := by
    intro db2
    cases h : db2.find i <;> simp [delete_account, h]
  have hbody : ∀ db2 : Store, (delete_account i db2).1.body = Json.str "" := by
    intro db2
    cases h : db2.find i <;> simp [delete_account, h]
  have habsent : (delete_account i db).2.find i = none := by
    cases h : db.find i with
    | none => simp [delete_account, h]
    | some a => simp [delete_account, h, find_deleteRow]
  exact ⟨hstat db, hbody db, habsent, hstat _, hbody _⟩

/-- Claim C5: a JSON POST whose body deserializes answers 201, its body is
the serialization of the created account carrying the newly assigned id,
the Location header is present, and exactly one new row is appended to the
store. -/
theorem C5_create_success (req : Request) (db : Store) (f : AccountFields)
    (hct : req.contentType = some "application/json")
    (hde : deserialize req.body = Except.ok f) :
    ((create_accounts req db).1.status = 201) ∧
    ((create_accounts req db).1.body = Account.serialize
        { id := db.nextId, name := f.name, email := f.email, address := f.address,
          phone_number := f.phone_number, date_joined := f.date_joined }) ∧
    ((create_accounts req db).1.location.isSome = true) ∧
    ((create_accounts req db).2.rows =
      db.rows ++ [{ id := db.nextId, name := f.name, email := f.email, address := f.address,
                    phone_number := f.phone_number, date_joined := f.date_joined }]) ∧
    ((create_accounts req db).2.rows.length = db.rows.length + 1) := by
  refine ⟨?_, ?_, ?_, ?_, ?_⟩ <;>
    simp [create_accounts, check_content_type, hct, hde, Store.create]

/-- Claim C5, witness at a concrete input. -/
theorem C5_create_success_witness :
    (exReqGood.contentType = some "application/json") ∧
    (deserialize exReqGood.body = Except.ok exFields) ∧
    ((create_accounts exReqGood exStore).1.status = 201) ∧
    ((create_accounts exReqGood exStore).2.rows.length = exStore.rows.length + 1) :=
  ⟨rfl, rfl, (C5_create_success exReqGood exStore exFields rfl rfl).1,
    (C5_create_success exReqGood exStore exFields rfl rfl).2.2.2.2⟩

/-- Claim C6: listing answers 200 with a JSON array holding exactly one
entry per stored account, each entry the serialization of the account at
the same position, and the empty array when the store is empty. -/
theorem C6_list_all (db : Store) :
    ((list_accounts db).1.status = 200) ∧
    (∃ entries, (list_accounts db).1.body = Json.arr entries ∧
        entries.length = db.all.length ∧
        ∀ j, j < db.all.length → entries[j]? = (db.all[j]?).map Account.serialize) ∧
    (db.all = [] → (list_accounts db).1.body = Json.arr []) := by
  refine ⟨rfl, ⟨db.all.map Account.serialize, rfl, by simp, ?_⟩, ?_⟩
  · intro j hj
    simp
  · intro h
    simp [list_accounts, h]

/-- Claim C6, witness at a concrete input: the empty store lists as the
empty array. -/
theorem C6_list_all_witness :
    (emptyStore.all = []) ∧ ((list_accounts emptyStore).1.body = Json.arr []) :=
  ⟨rfl, (C6_list_all emptyStore).2.2 rfl⟩

/-- Claim C7: deserializing the serialization of an account whose date is a
well-formed ISO date reproduces the four text fields and the date, with
only the id left aside for the store to reassign. -/
theorem C7_round_trip (a : Account) (h : isIsoDate a.date_joined = true) :
    deserialize (some a.serialize) =
      Except.ok { name := a.name, email := a.email, address := a.address,
                  phone_number := a.phone_number, date_joined := a.date_joined } := by
  simp [deserialize, Account.serialize, getStr, jlookup, h]

/-- Claim C7, witness at a concrete account. -/
theorem C7_round_trip_witness :
    (isIsoDate exAccount.date_joined = true) ∧
    (deserialize (some exAccount.serialize) =
      Except.ok { name := exAccount.name, email := exAccount.email,
                  address := exAccount.address, phone_number := exAccount.phone_number,
                  date_joined := exAccount.date_joined }) :=
  ⟨rfl, C7_round_trip exAccount rfl⟩

/-- Claim C8: a JSON POST whose body fails deserialization answers 400 and
creates nothing. -/
theorem C8_create_invalid_body (req : Request) (db : Store)
    (hct : req.contentType = some "application/json")
    (hbad : ∃ msg, deserialize req.body = Except.error msg) :
    ((create_accounts req db).1.status = 400) ∧ ((create_accounts req db).2 = db) := by
  obtain ⟨msg, hd⟩ := hbad
  simp [create_accounts, check_content_type, hct, hd]

/-- Claim C8, witness at the concrete example body holding only a name. -/
theorem C8_create_invalid_body_witness :
    (deserialize (some exBadBody) = Except.error "Invalid Account: missing email") ∧
    ((create_accounts exReqBad exStore).1.status = 400) ∧
    ((create_accounts exReqBad exStore).2 = exStore) :=
  ⟨rfl, (C8_create_invalid_body exReqBad exStore rfl ⟨_, rfl⟩).1,
    (C8_create_invalid_body exReqBad exStore rfl ⟨_, rfl⟩).2⟩

/-- Claim C9: in the PUT handler the not-found check precedes body
validation, so every request to an absent id answers 404 and changes
nothing, whatever the body holds. -/
theorem C9_put_not_found_precedence (i : Nat) (req : Request) (db : Store)
    (h : db.find i = none) :
    ((update_account i req db).1.status = 404) ∧ ((update_account i req db).2 = db) := by
  simp [update_account, h]

/-- Claim C9, witness at a concrete input whose body also fails
deserialization: the 404 still wins. -/
theorem C9_put_not_found_precedence_witness :
    (exStore.find 7 = none) ∧
    (deserialize exReqBad.body = Except.error "Invalid Account: missing email") ∧
    ((update_account 7 exReqBad exStore).1.status = 404) :=
  ⟨rfl, rfl, (C9_put_not_found_precedence 7 exReqBad exStore rfl).1⟩

/-- Claim C10: the read-only routes, the health probe, the listing and the
single read, return the store exactly as they received it. -/
theorem C10_reads_frame (db : Store) (i : Nat) :
    ((health db).2 = db) ∧ ((list_accounts db).2 = db) ∧ ((get_accounts i db).2 = db) := by
  refine ⟨rfl, rfl, ?_⟩
  cases h : db.find i <;> simp [get_accounts, h]

end AccountService
